import Mathlib

/-!
Verification of the pipeline-topology, type-validation, staging and
discovery logic of `ophyd/areadetector/plugins.py`, via a shallow
embedding of the relevant Python code in Lean.
-/

namespace Plugins

/-! ## Definitions: type-validation state machine (`PluginBase`) -/

/-- Embedding of Python `str.startswith`: `pyStartswith s pre` is `true`
iff `pre` is a prefix of `s`. -/
def pyStartswith (s pre : String) : Bool :=
  pre.toList.isPrefixOf s.toList

/-- Errors that a `plugin_type.get()` call can raise: `DestroyedError`
(the signal was destroyed) or any other exception. -/
inductive GetError where
  | destroyed
  | other
  deriving DecidableEq, Repr

/-- Outcome of reading the remote `PluginType_RBV` point: either a value
(the reported plugin-type string) or a raised error. -/
inductive GetResult where
  | value (s : String)
  | err (e : GetError)
  deriving DecidableEq, Repr

/-- The misconfigured tri-state as stored in `PluginBase._misconfigured`:
`none` = not yet checked (Python `None`), `some false` = confirmed ok
(Python `False`), `some true` = confirmed bad (Python `True`). -/
abbrev Misconfigured := Option Bool

/-- The spec vocabulary for the type-validation state. -/
inductive TriState where
  | unknown
  | confirmedOk
  | confirmedBad
  deriving DecidableEq, Repr

/-- Reading `PluginBase._misconfigured` in the spec vocabulary. -/
def misState : Misconfigured → TriState
  | none => .unknown
  | some false => .confirmedOk
  | some true => .confirmedBad

/-- Embedding of the `_misconfigured` initialisation in
`PluginBase.__init__`: `None` when the class declares a `_plugin_type`,
`False` otherwise. -/
def pluginInit (declared : Option String) : Misconfigured :=
  match declared with
  | some _ => none
  | none => some false

/-- Embedding of `PluginBase._plugin_type_connected`, the connection
callback on `plugin_type`: returns early (state unchanged) when not
connected or when the class declares no `_plugin_type`; a
`DestroyedError` from `plugin_type.get()` is swallowed (state
unchanged); any other exception propagates; otherwise the state becomes
`not plugin_type.startswith(self._plugin_type)`. -/
def pluginTypeConnected (declared : Option String) (connected : Bool)
    (g : GetResult) (m : Misconfigured) : Except GetError Misconfigured :=
  match declared, connected with
  | none, _ => .ok m
  | some _, false => .ok m
  | some pt, true =>
    match g with
    | .err .destroyed => .ok m
    | .err .other => .error .other
    | .value reported => .ok (some (!(pyStartswith reported pt)))

/-- Errors that `PluginBase.stage` can raise: a propagated communication
error, or `PluginMisconfigurationError` carrying the remote prefix, the
instantiated class name, the declared `_plugin_type` and the reported
type (the four pieces interpolated into its message). -/
inductive StageError where
  | comm (e : GetError)
  | mismatch (pfx clsName : String) (declared : Option String) (reported : String)
  deriving DecidableEq, Repr

/-- Embedding of the type-check part of `PluginBase.stage`: when the
state is still `None`, wait for connection (modelled by calling the
callback with `connected=True`) and re-issue the check; then, if the
state is truthy (`some true`), raise `PluginMisconfigurationError`
formatted from the prefix, class name, declared type and
`plugin_type.get()`. -/
def stage (pfx clsName : String) (declared : Option String)
    (g : GetResult) (m : Misconfigured) : Except StageError Misconfigured :=
  match (if m = none then pluginTypeConnected declared true g m else .ok m) with
  | .error e => .error (.comm e)
  | .ok mNew =>
    if mNew = some true then
      match g with
      | .value reported => .error (.mismatch pfx clsName declared reported)
      | .err e => .error (.comm e)
    else .ok mNew

instance {ε α : Type} [DecidableEq ε] [DecidableEq α] :
    DecidableEq (Except ε α) := fun a b =>
  match a, b with
  | .ok x, .ok y =>
    if h : x = y then .isTrue (by rw [h]) else .isFalse (by simp [h])
  | .error x, .error y =>
    if h : x = y then .isTrue (by rw [h]) else .isFalse (by simp [h])
  | .ok _, .error _ => .isFalse (by simp)
  | .error _, .ok _ => .isFalse (by simp)

/-! ## Definitions: pipeline resolution (`_asyn_pipeline`) -/

/-- A node of the areaDetector pipeline as seen by `_asyn_pipeline`:
either the root image source (e.g. the camera), which has no
`_asyn_pipeline` attribute of its own, or a plugin, identified by its
name together with the current value of its `nd_array_port` signal. -/
inductive Node where
  | cam (name : String)
  | plugin (name : String) (port : String)
  deriving DecidableEq, Repr

/-- Modelled from the spec: `ad_root.get_plugin_by_asyn_port` (defined
outside this file's source) is the root's index from an asyn port name
to the device owning that port; we take it as an arbitrary function from
port names to nodes. -/
abbrev PortIndex := String → Node

/-- Embedding of the `PluginBase._asyn_pipeline` property: resolve the
upstream node from this plugin's `nd_array_port` via the root's port
index; if that node itself has an `_asyn_pipeline` (i.e. is a plugin),
the result is its pipeline with this plugin appended, otherwise the pair
(upstream, this plugin). The source recursion has no termination
guarantee (no cycle detection), so the embedding carries explicit fuel
and returns `none` when it runs out. -/
def asynPipeline (idx : PortIndex) : Nat → String → String → Option (List Node)
  | 0, _, _ => none
  | fuel + 1, nm, pt =>
    match idx pt with
    | .cam c => some [.cam c, .plugin nm pt]
    | .plugin upNm upPt =>
      (asynPipeline idx fuel upNm upPt).map (· ++ [.plugin nm pt])

/-- Example two-plugin topology: port CAMPORT is owned by the camera,
port P1PORT by a plugin fed directly by the camera. -/
def exIdx : PortIndex := fun p =>
  if p = "CAMPORT" then .cam "cam"
  else if p = "P1PORT" then .plugin "P1" "CAMPORT"
  else .cam "cam"

/-! ## Definitions: ordered mappings and configuration merging -/

/-- Embedding of `OrderedDict` item assignment `d[k] = v` on an
association list: an existing key keeps its position and gets the new
value; a new key is appended at the end. -/
def odSet {V : Type} (d : List (String × V)) (k : String) (v : V) :
    List (String × V) :=
  match d with
  | [] => [(k, v)]
  | (k1, v1) :: rest =>
    if k1 = k then (k1, v) :: rest else (k1, v1) :: odSet rest k v

/-- Embedding of `OrderedDict` key lookup `d[k]` (first matching
entry). -/
def odLookup {V : Type} (d : List (String × V)) (k : String) : Option V :=
  match d with
  | [] => none
  | (k1, v1) :: rest => if k1 = k then some v1 else odLookup rest k

/-- Embedding of `d.update(other)`: assign every pair of `other` into
`d` in order. -/
def odUpdate {V : Type} (d : List (String × V)) :
    List (String × V) → List (String × V)
  | [] => d
  | (k, v) :: rest => odUpdate (odSet d k v) rest

/-- Embedding of `PluginBase.read_configuration` (and, with a different
`conf`, of the identically-shaped `describe_configuration`): a plugin
returns its own configuration (`super().read_configuration()`) updated
with its source plugin's recursively merged configuration. The camera
terminates the recursion; its plain device `read_configuration` is
modelled from the spec as returning just its own configuration. Fuel
makes the unbounded source recursion total. -/
def read_configuration (idx : PortIndex) (conf : Node → List (String × Nat)) :
    Nat → Node → Option (List (String × Nat))
  | 0, _ => none
  | _ + 1, .cam c => some (conf (.cam c))
  | fuel + 1, .plugin nm pt =>
    (read_configuration idx conf fuel (idx pt)).map
      (fun up => odUpdate (conf (.plugin nm pt)) up)

/-- Example per-node configurations with a colliding field name
`shared`. -/
def exConf : Node → List (String × Nat)
  | .cam _ => [("cam_field", 1), ("shared", 10)]
  | .plugin _ _ => [("p1_field", 2), ("shared", 20)]

/-! ## Definitions: staging directive set (`stage_sigs`) -/

/-- Values written into `stage_sigs`. -/
inductive SigVal where
  | num (n : Nat)
  | str (s : String)
  deriving DecidableEq, Repr

/-- Embedding of `OrderedDict.move_to_end(k, last=False)`: move the
entry for `k` to the front, keeping the rest in order. -/
def moveToFront (d : List (String × SigVal)) (k : String) :
    List (String × SigVal) :=
  match odLookup d k with
  | none => d
  | some v => (k, v) :: d.eraseP (fun q => q.1 == k)

/-- Embedding of the `stage_sigs` manipulation in `PluginBase.__init__`:
`enable_on_stage()` sets `'enable' = 1`; `move_to_end('enable',
last=False)` puts it first; `ensure_blocking()` sets
`'blocking_callbacks' = 'Yes'`; and when the parent exposes a `cam`, the
parent camera's `array_callbacks = 1` directive is added. `base` is
whatever `stage_sigs` the superclass initialisation produced. -/
def initStageSigs (base : List (String × SigVal)) (hasCamParent : Bool) :
    List (String × SigVal) :=
  let d1 := odSet base "enable" (.num 1)
  let d2 := moveToFront d1 "enable"
  let d3 := odSet d2 "blocking_callbacks" (.str "Yes")
  if hasCamParent then odSet d3 "parent.cam.array_callbacks" (.num 1) else d3

/-! ## Definitions: plugin registry and discovery -/

/-- A token of a `_suffix_re` recognition pattern: a literal character
or the Python regex class `\d` (one digit). Every registered class's
pattern (e.g. `Stats\d:`) is built from these. -/
inductive PatTok where
  | lit (c : Char)
  | digit
  deriving DecidableEq, Repr

/-- Match a pattern against the beginning of a character list. -/
def patMatchAt : List PatTok → List Char → Bool
  | [], _ => true
  | _ :: _, [] => false
  | .lit c :: ps, x :: xs => (x == c) && patMatchAt ps xs
  | .digit :: ps, x :: xs => x.isDigit && patMatchAt ps xs

/-- Embedding of `re.search(pattern, pv)` for the suffix patterns:
`true` iff the pattern matches at some position of the string. -/
def reSearch (p : List PatTok) : List Char → Bool
  | [] => patMatchAt p []
  | c :: rest => patMatchAt p (c :: rest) || reSearch p rest

/-- The process-wide `_plugin_class` registry in iteration order: each
registered class is represented by its `_plugin_type` identifier (the
key `register_plugin` stores it under), paired with its `_suffix_re`
recognition pattern. -/
abbrev Registry := List (String × List PatTok)

/-- Embedding of `plugin_from_pvname`: scan the registry in order and
return the first class whose `_suffix_re` matches the pv name, else
`None`. It performs no remote read. -/
def plugin_from_pvname (registry : Registry) (pv : String) : Option String :=
  match registry with
  | [] => none
  | (ty, pat) :: rest =>
    if reSearch pat pv.toList then some ty else plugin_from_pvname rest pv

/-- The two distinct `ValueError`s of
`get_areadetector_plugin_class`: the caget timed out, or the reported
identifier is not registered. -/
inductive DiscoveryError where
  | timeout
  | unknownType (ty : String)
  deriving DecidableEq, Repr

/-- Embedding of `type_.split(' ')[0]`: the characters before the first
space. -/
def pySplitFirst (s : String) : String :=
  String.mk (s.toList.takeWhile (fun c => c != ' '))

/-- Embedding of `get_areadetector_plugin_class`: try
`plugin_from_pvname` first; otherwise `caget` the `PluginType_RBV`
point at the prefix under the given timeout (`none` models a timed-out
read), strip the trailing version annotation, and look the identifier up
in the registry. -/
def get_areadetector_plugin_class (registry : Registry)
    (caget : String → Nat → Option String) (pfx : String) (timeout : Nat) :
    Except DiscoveryError String :=
  match plugin_from_pvname registry pfx with
  | some cls => .ok cls
  | none =>
    match caget (pfx ++ "PluginType_RBV") timeout with
    | none => .error .timeout
    | some ty =>
      match odLookup registry (pySplitFirst ty) with
      | some _ => .ok (pySplitFirst ty)
      | none => .error (.unknownType (pySplitFirst ty))

/-- The source's default for the `timeout` parameter of
`get_areadetector_plugin_class` is 2.0 (seconds). -/
def defaultTimeout : Nat := 2

/-- `get_areadetector_plugin_class` invoked without an explicit
timeout. -/
def get_areadetector_plugin_class_default (registry : Registry)
    (caget : String → Nat → Option String) (pfx : String) :
    Except DiscoveryError String :=
  get_areadetector_plugin_class registry caget pfx defaultTimeout

/-- The `Stats\d:` pattern of `StatsPlugin`. -/
def statsPat : List PatTok :=
  [.lit 'S', .lit 't', .lit 'a', .lit 't', .lit 's', .digit, .lit ':']

/-- The `ROI\d:` pattern of `ROIPlugin`. -/
def roiPat : List PatTok :=
  [.lit 'R', .lit 'O', .lit 'I', .digit, .lit ':']

/-- The `image\d:` pattern of `ImagePlugin`. -/
def imagePat : List PatTok :=
  [.lit 'i', .lit 'm', .lit 'a', .lit 'g', .lit 'e', .digit, .lit ':']

/-- A concrete registry slice in source registration order. -/
def exRegistry : Registry :=
  [("NDPluginStdArrays", imagePat),
   ("NDPluginStats", statsPat),
   ("NDPluginROI", roiPat)]

/-! ## Definitions: ROI setter -/

/-- The axes a region mapping may mention. -/
inductive Axis where
  | x
  | y
  | z
  deriving DecidableEq, Repr

/-- The axis label used to form attribute names. -/
def axName : Axis → String
  | .x => "x"
  | .y => "y"
  | .z => "z"

/-- The axis-minimum remote point `min_xyz.min_<axis>`. -/
def minPoint (a : Axis) : String := "min_xyz.min_" ++ axName a

/-- The axis-size remote point `size.<axis>`. -/
def sizePoint (a : Axis) : String := "size." ++ axName a

/-- The sequence of writes `ROIPlugin.set` issues for a region: per axis
present, first the minimum point with the pair's first component, then
the size point with its second. -/
def roiWrites : List (Axis × Nat × Nat) → List (String × Nat)
  | [] => []
  | (a, mn, sz) :: rest => (minPoint a, mn) :: (sizePoint a, sz) :: roiWrites rest

/-- Apply a write sequence to the remote state: a write whose completion
succeeds (per the `outcome` oracle) changes the remote point's value,
a rejected write leaves it; the per-write completions are collected in
order. -/
def applyWrites (outcome : String → Bool) :
    List (String × Nat) → List (String × Nat) →
      List Bool × List (String × Nat)
  | st, [] => ([], st)
  | st, (p, v) :: rest =>
    let res := applyWrites outcome (if outcome p then odSet st p v else st) rest
    (outcome p :: res.1, res.2)

/-- Python-level errors `ROIPlugin.set` raises at its final line:
`NameError` (the local `status` was never assigned, when called with
`region=None`) and `TypeError` (`functools.reduce` of an empty sequence
without initializer, when called with an empty region). -/
inductive PyErr where
  | nameError
  | typeError
  deriving DecidableEq, Repr

/-- Embedding of `functools.reduce(operator.and_, xs)` with no
initializer: an empty sequence is an error (`none`). -/
def reduceAnd : List Bool → Option Bool
  | [] => none
  | b :: rest => some (rest.foldl (· && ·) b)

/-- Embedding of `ROIPlugin.set`: `region=None` skips the loop so the
final `reduce` reads the unassigned local `status` (`NameError`);
otherwise two sets per present axis are issued (minimum then size) and
the collected statuses are and-reduced (`TypeError` on an empty region).
Returns the combined completion with the remote state after the issued
writes. -/
def ROIPlugin.set (outcome : String → Bool) (st : List (String × Nat))
    (region : Option (List (Axis × Nat × Nat))) :
    Except PyErr (Bool × List (String × Nat)) :=
  match region with
  | none => .error .nameError
  | some r =>
    let res := applyWrites outcome st (roiWrites r)
    match reduceAnd res.1 with
    | none => .error .typeError
    | some b => .ok (b, res.2)

/-- Outcome oracle for the partial-failure example: only the x-minimum
write completes successfully. -/
def exOutcome : String → Bool := fun p => p == "min_xyz.min_x"

/-! ## Sanity checks on concrete inputs -/

example : pyStartswith "NDPluginStats 1.9.1" "NDPluginStats" = true := by decide

example : pluginTypeConnected (some "NDPluginStats") true
    (.value "NDPluginStats 1.9.1") none = .ok (some false) := by decide

example : stage "XF31IDA:Stats1:" "StatsPlugin" (some "NDPluginStats")
    (.value "NDPluginROI") none =
    .error (.mismatch "XF31IDA:Stats1:" "StatsPlugin" (some "NDPluginStats")
      "NDPluginROI") := by decide

example : initStageSigs [("blocking_callbacks", .str "No")] true =
    [("enable", .num 1), ("blocking_callbacks", .str "Yes"),
     ("parent.cam.array_callbacks", .num 1)] := by decide

/-! ## Helper lemmas -/

/-- More fuel never changes a successful pipeline resolution. -/
theorem asynPipeline_fuel_mono (idx : PortIndex) :
    ∀ fuel fuel2 nm pt l, fuel ≤ fuel2 →
      asynPipeline idx fuel nm pt = some l →
      asynPipeline idx fuel2 nm pt = some l := by
  intro fuel
  induction fuel with
  | zero => intro fuel2 nm pt l _ h; simp [asynPipeline] at h
  | succ f ih =>
    intro fuel2 nm pt l hle h
    obtain ⟨f2, rfl⟩ : ∃ f2, fuel2 = f2 + 1 := by
      cases fuel2 with
      | zero => omega
      | succ k => exact ⟨k, rfl⟩
    simp only [asynPipeline] at h ⊢
    cases hidx : idx pt with
    | cam c => rw [hidx] at h; exact h
    | plugin upNm upPt =>
      simp only [hidx] at h ⊢
      cases hrec : asynPipeline idx f upNm upPt with
      | none => rw [hrec] at h; simp at h
      | some l2 =>
        rw [hrec] at h
        rw [ih f2 upNm upPt l2 (by omega) hrec]
        exact h

/-- Assigning a key makes it look up to the assigned value. -/
theorem odLookup_odSet_self {V : Type} (d : List (String × V)) (k : String)
    (v : V) : odLookup (odSet d k v) k = some v := by
  induction d with
  | nil => simp [odSet, odLookup]
  | cons p rest ih =>
    obtain ⟨k1, v1⟩ := p
    by_cases h : k1 = k <;> simp [odSet, odLookup, h, ih]

/-- Assigning a key leaves other keys' lookups unchanged. -/
theorem odLookup_odSet_other {V : Type} (d : List (String × V)) (k k2 : String)
    (v : V) (h : k2 ≠ k) : odLookup (odSet d k v) k2 = odLookup d k2 := by
  induction d with
  | nil => simp [odSet, odLookup, Ne.symm h]
  | cons p rest ih =>
    obtain ⟨k1, v1⟩ := p
    by_cases h1 : k1 = k
    · subst h1
      simp [odSet, odLookup, Ne.symm h]
    · simp only [odSet, if_neg h1]
      by_cases h2 : k1 = k2 <;> simp [odLookup, h2, ih]

/-- A key absent from the key list looks up to `none`. -/
theorem odLookup_eq_none {V : Type} (d : List (String × V)) (k : String)
    (h : k ∉ d.map Prod.fst) : odLookup d k = none := by
  induction d with
  | nil => rfl
  | cons p rest ih =>
    obtain ⟨k1, v1⟩ := p
    simp only [List.map_cons, List.mem_cons] at h
    push_neg at h
    simp [odLookup, Ne.symm h.1, ih h.2]

/-- Updating with a mapping that lacks key `k` leaves `k`'s lookup
unchanged. -/
theorem odLookup_odUpdate_notin {V : Type} (up : List (String × V)) :
    ∀ (d : List (String × V)) (k : String), odLookup up k = none →
      odLookup (odUpdate d up) k = odLookup d k := by
  induction up with
  | nil => intro d k _; rfl
  | cons p rest ih =>
    intro d k h
    obtain ⟨k1, v1⟩ := p
    simp only [odLookup] at h
    by_cases hk : k1 = k
    · simp [hk] at h
    · simp only [odUpdate]
      rw [ih (odSet d k1 v1) k (by simpa [hk] using h)]
      exact odLookup_odSet_other d k1 k v1 (Ne.symm hk)

/-- Updating with a duplicate-free mapping containing key `k` makes `k`
look up to the updating mapping's value: the updating side wins on
collision. -/
theorem odLookup_odUpdate_mem {V : Type} (up : List (String × V)) :
    ∀ (d : List (String × V)) (k : String) (v : V),
      (up.map Prod.fst).Nodup → odLookup up k = some v →
      odLookup (odUpdate d up) k = some v := by
  induction up with
  | nil => intro d k v _ h; simp [odLookup] at h
  | cons p rest ih =>
    intro d k v hnodup h
    obtain ⟨k1, v1⟩ := p
    simp only [List.map_cons, List.nodup_cons] at hnodup
    simp only [odLookup] at h
    by_cases hk : k1 = k
    · subst hk
      simp at h
      have hnone : odLookup rest k1 = none :=
        odLookup_eq_none rest k1 hnodup.1
      simp only [odUpdate]
      rw [odLookup_odUpdate_notin rest (odSet d k1 v1) k1 hnone,
        odLookup_odSet_self]
      exact congrArg some h
    · simp only [if_neg hk] at h
      simp only [odUpdate]
      exact ih (odSet d k1 v1) k v hnodup.2 h

/-- A registry segment with no matching pattern is skipped. -/
theorem plugin_from_pvname_append (pv : String) :
    ∀ (pre rest : Registry), (∀ e ∈ pre, reSearch e.2 pv.toList = false) →
      plugin_from_pvname (pre ++ rest) pv = plugin_from_pvname rest pv := by
  intro pre
  induction pre with
  | nil => intro rest _; rfl
  | cons e pre ih =>
    intro rest h
    obtain ⟨ty, pat⟩ := e
    have h1 := h (ty, pat) (by simp)
    simp only at h1
    simp only [List.cons_append, plugin_from_pvname]
    rw [if_neg (by simp only [Bool.not_eq_true]; exact h1)]
    exact ih rest (fun e2 he => h e2 (by simp [he]))

/-- When no registered pattern matches, pattern discovery returns
`none`. -/
theorem plugin_from_pvname_eq_none (pv : String) (registry : Registry)
    (h : ∀ e ∈ registry, reSearch e.2 pv.toList = false) :
    plugin_from_pvname registry pv = none := by
  simpa using plugin_from_pvname_append pv registry [] h

/-- The completion list collected by `applyWrites` is the write-wise
outcome of each issued write. -/
theorem applyWrites_fst (outcome : String → Bool) :
    ∀ (ws st : List (String × Nat)),
      (applyWrites outcome st ws).1 = ws.map (fun pv => outcome pv.1) := by
  intro ws
  induction ws with
  | nil => intro st; rfl
  | cons p rest ih =>
    intro st
    obtain ⟨pn, v⟩ := p
    simp [applyWrites, ih]

/-- `reduce(and_, l)` of a non-empty list is the conjunction of its
elements. -/
theorem reduceAnd_eq_all (l : List Bool) (h : l ≠ []) :
    reduceAnd l = some (l.all id) := by
  cases l with
  | nil => exact absurd rfl h
  | cons b rest =>
    simp only [reduceAnd, List.all_cons, id, Option.some.injEq]
    induction rest generalizing b with
    | nil => simp
    | cons c cs ih => simp [List.foldl_cons, ih, Bool.and_assoc]

/-- Two writes are issued per axis present. -/
theorem roiWrites_length (r : List (Axis × Nat × Nat)) :
    (roiWrites r).length = 2 * r.length := by
  induction r with
  | nil => rfl
  | cons a t ih =>
    obtain ⟨ax, mn, sz⟩ := a
    simp only [roiWrites, List.length_cons, ih]
    omega

/-! ## Claim theorems -/

/-- C1: once the live type report is available, a plugin with a declared
expected type becomes confirmed-ok exactly when the reported type string
starts with the declared string, and confirmed-bad otherwise; a plugin
whose class declares no expected type is confirmed-ok from construction
and no connection callback ever changes that. -/
theorem c1_type_check (pt reported : String) (m : Misconfigured)
    (c : Bool) (g : GetResult) :
    (∃ mNew, pluginTypeConnected (some pt) true (.value reported) m = .ok mNew ∧
      misState mNew =
        (if pyStartswith reported pt then TriState.confirmedOk
         else TriState.confirmedBad)) ∧
    misState (pluginInit none) = TriState.confirmedOk ∧
    pluginTypeConnected none c g (pluginInit none) = .ok (pluginInit none) := by
  refine ⟨⟨some (!(pyStartswith reported pt)), rfl, ?_⟩, rfl, rfl⟩
  cases h : pyStartswith reported pt <;> simp [misState, h]

/-- C2: staging a plugin with a declared type and state still unknown
re-issues the type check after the type-report point connects; the state
resolves to confirmed-ok when the report starts with the declared type,
and otherwise staging raises `PluginMisconfigurationError` carrying the
remote prefix, the class name, the declared type and the reported
type. -/
theorem c2_stage_resolves (pfx clsName pt reported : String) :
    stage pfx clsName (some pt) (.value reported) none =
      (if pyStartswith reported pt then .ok (some false)
       else .error (.mismatch pfx clsName (some pt) reported)) := by
  cases h : pyStartswith reported pt <;> simp [stage, pluginTypeConnected, h]

/-- C3: resolving the upstream chain reads the plugin's source port,
looks the owner up in the root's port index, and returns the upstream
chain with this plugin appended when the upstream node exposes a chain,
and the pair [upstream, this plugin] otherwise; a plugin directly fed by
the root yields [root, plugin], and the result is stable (repeated
resolution with an unchanged topology returns the identical
sequence). -/
theorem c3_asyn_pipeline (idx : PortIndex) (nm pt : String) (fuel : Nat) :
    (∀ c, idx pt = .cam c →
      asynPipeline idx (fuel + 1) nm pt = some [.cam c, .plugin nm pt]) ∧
    (∀ upNm upPt l, idx pt = .plugin upNm upPt →
      asynPipeline idx fuel upNm upPt = some l →
      asynPipeline idx (fuel + 1) nm pt = some (l ++ [.plugin nm pt])) ∧
    (∀ l fuel2, asynPipeline idx fuel nm pt = some l → fuel ≤ fuel2 →
      asynPipeline idx fuel2 nm pt = some l) := by
  refine ⟨?_, ?_, ?_⟩
  · intro c hidx; simp [asynPipeline, hidx]
  · intro upNm upPt l hidx hrec; simp [asynPipeline, hidx, hrec]
  · intro l fuel2 h hle; exact asynPipeline_fuel_mono idx fuel fuel2 nm pt l hle h

/-- Witness for C3 on a concrete topology: a plugin fed by the root
gives [root, plugin], a plugin fed by an intermediate plugin gives
[root, P1, plugin], and the latter is unchanged when recomputed with
more fuel. -/
theorem c3_asyn_pipeline_witness :
    asynPipeline exIdx 1 "P1" "CAMPORT" =
      some [.cam "cam", .plugin "P1" "CAMPORT"] ∧
    asynPipeline exIdx 2 "P2" "P1PORT" =
      some [.cam "cam", .plugin "P1" "CAMPORT", .plugin "P2" "P1PORT"] ∧
    asynPipeline exIdx 7 "P2" "P1PORT" =
      some [.cam "cam", .plugin "P1" "CAMPORT", .plugin "P2" "P1PORT"] := by
  have h1 := (c3_asyn_pipeline exIdx "P1" "CAMPORT" 0).1 "cam" (by decide)
  have h2 := (c3_asyn_pipeline exIdx "P2" "P1PORT" 1).2.1 "P1" "CAMPORT"
    [.cam "cam", .plugin "P1" "CAMPORT"] (by decide) h1
  have h3 := (c3_asyn_pipeline exIdx "P2" "P1PORT" 2).2.2
    [.cam "cam", .plugin "P1" "CAMPORT", .plugin "P2" "P1PORT"] 7 h2 (by decide)
  exact ⟨h1, h2, h3⟩

/-- C4 counterexample: on a two-level chain with a colliding field name,
the merged configuration is the downstream plugin's fields followed by
the upstream-only fields, and on the collision the upstream value (10)
wins — not the claimed upstream-fields-first order with the downstream
value (20) winning. -/
theorem c4_counterexample :
    read_configuration exIdx exConf 2 (.plugin "P1" "CAMPORT") =
      some [("p1_field", 2), ("shared", 10), ("cam_field", 1)] ∧
    read_configuration exIdx exConf 2 (.plugin "P1" "CAMPORT") ≠
      some [("cam_field", 1), ("shared", 20), ("p1_field", 2)] ∧
    odLookup [("p1_field", 2), ("shared", 10), ("cam_field", 1)] "shared" =
      some 10 :=
  ⟨by decide, by decide, by decide⟩

/-- C4 amended: the merged configuration of a plugin is its own
configuration updated by its ancestors', so the plugin's own fields come
first (followed by ancestor-only fields) and on a colliding field name
the ancestor's (upstream) value wins. -/
theorem c4_amended_merge (idx : PortIndex) (conf : Node → List (String × Nat))
    (nm pt c : String) (fuel : Nat) (hidx : idx pt = .cam c) :
    read_configuration idx conf (fuel + 2) (.plugin nm pt) =
      some (odUpdate (conf (.plugin nm pt)) (conf (.cam c))) ∧
    ∀ (d up : List (String × Nat)) (k : String) (v : Nat),
      (up.map Prod.fst).Nodup → odLookup up k = some v →
      odLookup (odUpdate d up) k = some v := by
  constructor
  · show read_configuration idx conf (fuel + 1 + 1) (.plugin nm pt) = _
    simp only [read_configuration, hidx]
    rfl
  · intro d up k v hnodup h
    exact odLookup_odUpdate_mem up d k v hnodup h

/-- Witness for C4 amended on the concrete two-level topology, including
the upstream value winning the `shared` collision. -/
theorem c4_amended_merge_witness :
    read_configuration exIdx exConf 2 (.plugin "P1" "CAMPORT") =
      some (odUpdate (exConf (.plugin "P1" "CAMPORT")) (exConf (.cam "cam"))) ∧
    odLookup (odUpdate [("p1_field", 2), ("shared", 20)]
      [("cam_field", 1), ("shared", 10)]) "shared" = some 10 :=
  ⟨(c4_amended_merge exIdx exConf "P1" "CAMPORT" "cam" 0 (by decide)).1,
   (c4_amended_merge exIdx exConf "P1" "CAMPORT" "cam" 0 (by decide)).2
     [("p1_field", 2), ("shared", 20)] [("cam_field", 1), ("shared", 10)]
     "shared" 10 (by decide) (by decide)⟩

/-- C5 counterexample: the connection callback is not a one-shot
transition: after the state is confirmed-ok, a later connection
notification whose report differs changes the state to confirmed-bad. -/
theorem c5_counterexample :
    pluginTypeConnected (some "NDPluginStats") true
      (.value "NDPluginStats 1.9.1") none = .ok (some false) ∧
    pluginTypeConnected (some "NDPluginStats") true
      (.value "NDPluginROI 1.9.1") (some false) = .ok (some true) ∧
    (some true : Misconfigured) ≠ some false :=
  ⟨by decide, by decide, by decide⟩

/-- C5 amended: whenever the report is available the callback leaves the
state in a confirmed (non-unknown) value, and re-running the callback
with the same report leaves the state unchanged — but the state is
recomputed on every notification rather than guarded to fire once. -/
theorem c5_amended_recheck (pt r : String) (m mNew : Misconfigured)
    (h : pluginTypeConnected (some pt) true (.value r) m = .ok mNew) :
    misState mNew ≠ TriState.unknown ∧
    pluginTypeConnected (some pt) true (.value r) mNew = .ok mNew := by
  have hm : mNew = some (!(pyStartswith r pt)) := by
    have h2 := h
    simp only [pluginTypeConnected, Except.ok.injEq] at h2
    exact h2.symm
  subst hm
  refine ⟨?_, by simp [pluginTypeConnected]⟩
  cases h2 : pyStartswith r pt <;> simp [misState, h2]

/-- Witness for C5 amended at a concrete report. -/
theorem c5_amended_recheck_witness :
    misState (some false) ≠ TriState.unknown ∧
    pluginTypeConnected (some "NDPluginStats") true
      (.value "NDPluginStats 1.9.1") (some false) = .ok (some false) :=
  c5_amended_recheck "NDPluginStats" "NDPluginStats 1.9.1" none (some false)
    (by decide)

/-- C6: a `DestroyedError` raised while reading the type report is
swallowed and the state is left unchanged (in particular an unknown
state stays unknown), while any other failure propagates to the
caller. -/
theorem c6_destroyed_swallowed (pt : String) (m : Misconfigured) :
    pluginTypeConnected (some pt) true (.err .destroyed) m = .ok m ∧
    pluginTypeConnected (some pt) true (.err .destroyed) none = .ok none ∧
    pluginTypeConnected (some pt) true (.err .other) m = .error .other :=
  ⟨rfl, rfl, rfl⟩

/-- C7: whatever `stage_sigs` the superclass initialisation produced and
whether or not a parent camera directive is added, after
`PluginBase.__init__` the first entry of `stage_sigs` is
`('enable', 1)`, so staging applies `enable` before every other
directive. -/
theorem c7_enable_first (base : List (String × SigVal)) (hasCamParent : Bool) :
    (initStageSigs base hasCamParent).head? = some ("enable", SigVal.num 1) := by
  have h1 := odLookup_odSet_self base "enable" (SigVal.num 1)
  have hb : ("enable" : String) ≠ "blocking_callbacks" := by decide
  have hc : ("enable" : String) ≠ "parent.cam.array_callbacks" := by decide
  cases hasCamParent <;>
    simp [initStageSigs, moveToFront, h1, odSet, hb, hc]

/-- C8: pattern discovery returns the first registered class whose
pattern matches the prefix, and `None` when none matches, with no remote
read; the live-query fallback fires only when no pattern matches: a
timed-out read is the distinct timeout error, otherwise the reported
value is split on the first space and looked up in the registry, a
missing identifier yielding the identifier-not-found error; the deadline
defaults to 2 time-units. -/
theorem c8_discovery (registry : Registry)
    (caget : String → Nat → Option String) (pv : String) (timeout : Nat)
    (pre post : Registry) (ty : String) (pat : List PatTok) :
    (registry = pre ++ (ty, pat) :: post →
      (∀ e ∈ pre, reSearch e.2 pv.toList = false) →
      reSearch pat pv.toList = true →
      plugin_from_pvname registry pv = some ty) ∧
    ((∀ e ∈ registry, reSearch e.2 pv.toList = false) →
      plugin_from_pvname registry pv = none ∧
      (caget (pv ++ "PluginType_RBV") timeout = none →
        get_areadetector_plugin_class registry caget pv timeout =
          .error .timeout) ∧
      (∀ s, caget (pv ++ "PluginType_RBV") timeout = some s →
        get_areadetector_plugin_class registry caget pv timeout =
          (match odLookup registry (pySplitFirst s) with
           | some _ => .ok (pySplitFirst s)
           | none => .error (.unknownType (pySplitFirst s))))) ∧
    get_areadetector_plugin_class_default registry caget pv =
      get_areadetector_plugin_class registry caget pv 2 := by
  refine ⟨?_, ?_, rfl⟩
  · intro hreg hpre hpat
    subst hreg
    rw [plugin_from_pvname_append pv pre _ hpre]
    simp only [plugin_from_pvname]
    rw [if_pos hpat]
  · intro h
    have hn := plugin_from_pvname_eq_none pv registry h
    refine ⟨hn, ?_, ?_⟩
    · intro hcg
      simp [get_areadetector_plugin_class, hn, hcg]
    · intro s hcg
      simp [get_areadetector_plugin_class, hn, hcg]

/-- Witness for C8 on a concrete registry: a `Stats7:` prefix picks the
statistics class past a non-matching earlier entry; a prefix matching no
pattern falls through to the live query, where a timed-out read, a
registered report carrying a version suffix, and an unregistered report
give the three documented results. -/
theorem c8_discovery_witness :
    plugin_from_pvname exRegistry "XF31IDA:Stats7:" = some "NDPluginStats" ∧
    plugin_from_pvname exRegistry "XF31IDA:TetrAMM:" = none ∧
    get_areadetector_plugin_class exRegistry (fun _ _ => none)
      "XF31IDA:TetrAMM:" 2 = .error .timeout ∧
    get_areadetector_plugin_class exRegistry (fun _ _ => some "NDPluginROI 1.9.1")
      "XF31IDA:TetrAMM:" 2 = .ok "NDPluginROI" ∧
    get_areadetector_plugin_class exRegistry (fun _ _ => some "NDFileHDF5 1.9.1")
      "XF31IDA:TetrAMM:" 2 = .error (.unknownType "NDFileHDF5") ∧
    get_areadetector_plugin_class_default exRegistry (fun _ _ => none)
      "XF31IDA:TetrAMM:" =
      get_areadetector_plugin_class exRegistry (fun _ _ => none)
        "XF31IDA:TetrAMM:" 2 := by
  refine ⟨?_, ?_, ?_, ?_, ?_, ?_⟩
  · exact (c8_discovery exRegistry (fun _ _ => none) "XF31IDA:Stats7:" 2
      [("NDPluginStdArrays", imagePat)] [("NDPluginROI", roiPat)]
      "NDPluginStats" statsPat).1 (by decide) (by decide) (by decide)
  · exact ((c8_discovery exRegistry (fun _ _ => none) "XF31IDA:TetrAMM:" 2
      [] [] "" []).2.1 (by decide)).1
  · exact ((c8_discovery exRegistry (fun _ _ => none) "XF31IDA:TetrAMM:" 2
      [] [] "" []).2.1 (by decide)).2.1 rfl
  · have := ((c8_discovery exRegistry (fun _ _ => some "NDPluginROI 1.9.1")
      "XF31IDA:TetrAMM:" 2 [] [] "" []).2.1 (by decide)).2.2
      "NDPluginROI 1.9.1" rfl
    rw [this]; decide
  · have := ((c8_discovery exRegistry (fun _ _ => some "NDFileHDF5 1.9.1")
      "XF31IDA:TetrAMM:" 2 [] [] "" []).2.1 (by decide)).2.2
      "NDFileHDF5 1.9.1" rfl
    rw [this]; decide
  · exact (c8_discovery exRegistry (fun _ _ => none) "XF31IDA:TetrAMM:" 2
      [] [] "" []).2.2

/-- C9: for a non-empty region, `ROIPlugin.set` issues exactly two
writes per axis present (minimum then size) and returns the conjunction
of every issued write's completion, over the remote state as mutated by
the writes that succeeded (no rollback). -/
theorem c9_roi_set (outcome : String → Bool) (st : List (String × Nat))
    (r : List (Axis × Nat × Nat)) (h : r ≠ []) :
    (roiWrites r).length = 2 * r.length ∧
    ROIPlugin.set outcome st (some r) =
      .ok ((roiWrites r).all (fun pv => outcome pv.1),
        (applyWrites outcome st (roiWrites r)).2) := by
  have hw : roiWrites r ≠ [] := by
    cases r with
    | nil => exact absurd rfl h
    | cons a t => obtain ⟨ax, mn, sz⟩ := a; simp [roiWrites]
  have hmapne : (roiWrites r).map (fun pv => outcome pv.1) ≠ [] := by
    simpa using hw
  refine ⟨roiWrites_length r, ?_⟩
  have hall : ∀ (ws : List (String × Nat)),
      (ws.map (fun pv => outcome pv.1)).all id =
        ws.all (fun pv => outcome pv.1) := by
    intro ws
    induction ws with
    | nil => rfl
    | cons p t ih => simp [List.all_cons, ih]
  simp only [ROIPlugin.set, applyWrites_fst, reduceAnd_eq_all _ hmapne, hall]

/-- Witness for C9 at the region `x = (10, 100)` where the minimum
write succeeds and the size write fails: the composite result is
failure, yet the remote minimum-x point already holds 10. -/
theorem c9_roi_set_witness :
    (([(Axis.x, 10, 100)] : List (Axis × Nat × Nat)) ≠ []) ∧
    ROIPlugin.set exOutcome [] (some [(Axis.x, 10, 100)]) =
      .ok ((roiWrites [(Axis.x, 10, 100)]).all (fun pv => exOutcome pv.1),
        (applyWrites exOutcome [] (roiWrites [(Axis.x, 10, 100)])).2) ∧
    ROIPlugin.set exOutcome [] (some [(Axis.x, 10, 100)]) =
      .ok (false, [("min_xyz.min_x", 10)]) ∧
    odLookup [("min_xyz.min_x", 10)] "min_xyz.min_x" = some 10 :=
  ⟨by decide,
   (c9_roi_set exOutcome [] [(Axis.x, 10, 100)] (by decide)).2,
   by decide, by decide⟩

/-- C10: calling `ROIPlugin.set` with `region=None` reaches the final
`reduce` with the local `status` unassigned (a `NameError`), and with an
empty region it reduces an empty list (a `TypeError`): neither call
returns a status value. -/
theorem c10_set_unhandled_errors (outcome : String → Bool)
    (st : List (String × Nat)) :
    ROIPlugin.set outcome st none = .error .nameError ∧
    ROIPlugin.set outcome st (some []) = .error .typeError :=
  ⟨rfl, rfl⟩

end Plugins
